import Mathlib

/-!
Verification of the product-notifications event path.

Shallow embedding of the Go sources:
  - internal/products (domain types, error values, event constants)
  - internal/products/service (Service.CreateProduct, DeleteProduct, ListProducts)
  - internal/products/messaging (RabbitPublisher.Publish)
  - internal/notifications (Consumer.Listen, Consumer.handleMessage)

External collaborators (the repository, the broker transport, the clock)
are passed as function parameters, exactly as the Go code receives them
through the Repository and Publisher interfaces.  Machine integers (Go
int / int64) are modelled as Int with explicit wrapping at 2 to the 64
where overflow can occur.  Go encoding/json is modelled on an inductive
JSON value type, specialized to the ProductEvent struct, following the
stdlib semantics: unknown object keys are ignored, absent fields keep
their zero value, a JSON null leaves the target unchanged, and a type
mismatch aborts decoding with an error.
-/

/-- Go error values with fmt.Errorf wrapping (errors.New sentinels plus
a wrap constructor for the percent-w chains). -/
inductive GoError where
  | errInvalidName
  | errNotFound
  | base (msg : String)
  | wrap (ctx : String) (inner : GoError)
  deriving DecidableEq, Repr

/-- Model of Go time.Time (stdlib, external to the repository): the year,
which time.Time.MarshalJSON range-checks, and the RFC 3339 rendering it
would emit, kept abstract as a string. -/
structure GoTime where
  year : Int
  rfc3339 : String
  deriving DecidableEq, Repr

/-- The zero time.Time value: 0001-01-01T00:00:00Z. -/
def zeroGoTime : GoTime := { year := 1, rfc3339 := "0001-01-01T00:00:00Z" }

/-- internal/products: Product struct. -/
structure Product where
  id : Int
  name : String
  createdAt : GoTime
  deriving DecidableEq, Repr

/-- internal/products: queue name constant EventsQueue. -/
def EventsQueue : String := "products.events"

/-- internal/products: event type constant EventCreated. -/
def EventCreated : String := "product_created"

/-- internal/products: event type constant EventDeleted. -/
def EventDeleted : String := "product_deleted"

/-- internal/products: ProductEvent struct (the wire entity). -/
structure ProductEvent where
  eventType : String
  productId : Int
  name : String
  timestamp : GoTime
  deriving DecidableEq, Repr

/-- The zero ProductEvent value, the state a fresh var in Go holds before
json.Unmarshal fills it. -/
def zeroProductEvent : ProductEvent :=
  { eventType := "", productId := 0, name := "", timestamp := zeroGoTime }

/-- JSON values (numbers restricted to integers, which covers every field
of the wire contract). -/
inductive Jval where
  | null
  | bool (b : Bool)
  | num (n : Int)
  | str (s : String)
  | arr (xs : List Jval)
  | obj (fields : List (String × Jval))

/-- Go time.Time.MarshalJSON: errors when the year is outside [0,9999],
otherwise emits the RFC 3339 string. -/
def marshalGoTime (t : GoTime) : Except String Jval :=
  if t.year < 0 ∨ 10000 ≤ t.year then
    .error "Time.MarshalJSON: year outside of range [0,9999]"
  else
    .ok (.str t.rfc3339)

/-- json.Marshal specialized to ProductEvent: fields in struct order with
their json tags; the name field carries omitempty, so it is dropped when
the string is empty; the timestamp field marshals through time.Time and
is the only fallible part. -/
def marshalProductEvent (e : ProductEvent) : Except String Jval :=
  match marshalGoTime e.timestamp with
  | .error msg => .error msg
  | .ok ts =>
      .ok (.obj
        ([("event_type", .str e.eventType), ("product_id", .num e.productId)]
          ++ (if e.name = "" then [] else [("name", .str e.name)])
          ++ [("timestamp", ts)]))

/-- internal/products/messaging RabbitPublisher.Publish: marshal the event,
then hand the payload to the broker channel (modelled by the transport
parameter); both failure kinds are wrapped with context. -/
def rabbitPublish (transport : Jval → Option GoError) (event : ProductEvent) :
    Option GoError :=
  match marshalProductEvent event with
  | .error msg => some (.wrap "marshal event" (.base msg))
  | .ok payload =>
      match transport payload with
      | some e => some (.wrap ("publish to " ++ EventsQueue) e)
      | none => none

/-- Go unicode.IsSpace restricted to the ASCII and Latin-1 characters it
recognizes (the wider Unicode space category is not needed here). -/
def isGoSpace (c : Char) : Bool :=
  c = ' ' || c = '\t' || c = '\n' || c = '\x0B' || c = '\x0C' || c = '\r' ||
    c = '\u0085' || c = '\u00A0'

/-- Go strings.TrimSpace: drop leading and trailing space characters. -/
def trimSpace (s : String) : String :=
  String.mk (((s.toList.dropWhile isGoSpace).reverse.dropWhile isGoSpace).reverse)

/-- internal/products/service: defaultPageSize. -/
def defaultPageSize : Int := 10

/-- internal/products/service: maxPageSize. -/
def maxPageSize : Int := 100

/-- The observable outcome of one service call: the returned value, the
events handed to Publisher.Publish in order, and the error log lines.
(The prometheus counter increments are side effects on an external
registry and carry no claim-relevant state.) -/
structure ServiceOutcome (α : Type) where
  result : Except GoError α
  published : List ProductEvent
  logs : List String

/-- Service.CreateProduct: trim the name, reject when empty, create through
the repository (wrapping its error), publish a product_created event with
the repository's returned identity and name, log a publish failure without
propagating it, and return the created product. -/
def createProduct (repoCreate : String → Except GoError Product)
    (publish : ProductEvent → Option GoError)
    (now : GoTime) (name : String) : ServiceOutcome Product :=
  let trimmed := trimSpace name
  if trimmed = "" then
    { result := .error .errInvalidName, published := [], logs := [] }
  else
    match repoCreate trimmed with
    | .error e =>
        { result := .error (.wrap "repo create" e), published := [], logs := [] }
    | .ok product =>
        let ev : ProductEvent :=
          { eventType := EventCreated, productId := product.id,
            name := product.name, timestamp := now }
        { result := .ok product
          published := [ev]
          logs :=
            match publish ev with
            | some _ => ["publish product_created event failed"]
            | none => [] }

/-- Service.DeleteProduct: delete through the repository (wrapping its
error), publish a product_deleted event whose Name field keeps its zero
value, log a publish failure without propagating it, and return nil. -/
def deleteProduct (repoDelete : Int → Option GoError)
    (publish : ProductEvent → Option GoError)
    (now : GoTime) (id : Int) : ServiceOutcome Unit :=
  match repoDelete id with
  | some e =>
      { result := .error (.wrap "repo delete" e), published := [], logs := [] }
  | none =>
      let ev : ProductEvent :=
        { eventType := EventDeleted, productId := id,
          name := "", timestamp := now }
      { result := .ok ()
        published := [ev]
        logs :=
          match publish ev with
          | some _ => ["publish product_deleted event failed"]
          | none => [] }

/-- Two's-complement wrap into the int64 range, Go's semantics for signed
multiplication overflow. -/
def int64Wrap (n : Int) : Int := (n + 2 ^ 63) % 2 ^ 64 - 2 ^ 63

/-- The observable outcome of ListProducts: the returned pair and the
(limit, offset) arguments of the repository List calls made. -/
structure ListOutcome where
  result : Except GoError (List Product × Int)
  repoCalls : List (Int × Int)

/-- Service.ListProducts: clamp page to at least 1, default the limit to
defaultPageSize when below 1 and cap it at maxPageSize, compute
offset = (page - 1) * limit in Go int arithmetic (64-bit, wrapping),
then return the repository List items and Count total unmodified,
wrapping either error. -/
def listProducts (repoList : Int → Int → Except GoError (List Product))
    (repoCount : Except GoError Int) (page limit : Int) : ListOutcome :=
  let page := if page < 1 then 1 else page
  let limit := if limit < 1 then defaultPageSize else limit
  let limit := if limit > maxPageSize then maxPageSize else limit
  let offset := int64Wrap ((page - 1) * limit)
  match repoList limit offset with
  | .error e => { result := .error (.wrap "repo list" e), repoCalls := [(limit, offset)] }
  | .ok items =>
      match repoCount with
      | .error e => { result := .error (.wrap "repo count" e), repoCalls := [(limit, offset)] }
      | .ok total => { result := .ok (items, total), repoCalls := [(limit, offset)] }

/-- A broker delivery body: either bytes that are not syntactically valid
JSON, or a parsed JSON value. -/
inductive Body where
  | malformed (raw : String)
  | json (v : Jval)

/-- One json.Unmarshal object field applied to the partially decoded
ProductEvent, Go stdlib semantics: a null value is a no-op for every
field; event_type and name require a JSON string; product_id requires an
integral JSON number in int64 range; timestamp goes through
time.Time.UnmarshalJSON, which requires an RFC 3339 string (parsing of
the string itself is the parseTime parameter, stdlib-external); keys
outside the contract are ignored. -/
def applyField (parseTime : String → Option GoTime) (ev : ProductEvent) :
    String × Jval → Except String ProductEvent
  | ("event_type", .null) => .ok ev
  | ("event_type", .str s) => .ok { ev with eventType := s }
  | ("event_type", _) => .error "cannot unmarshal into field EventType of type string"
  | ("product_id", .null) => .ok ev
  | ("product_id", .num n) =>
      if n < -(2 ^ 63) ∨ 2 ^ 63 ≤ n then
        .error "cannot unmarshal number into field ProductID of type int64"
      else
        .ok { ev with productId := n }
  | ("product_id", _) => .error "cannot unmarshal into field ProductID of type int64"
  | ("name", .null) => .ok ev
  | ("name", .str s) => .ok { ev with name := s }
  | ("name", _) => .error "cannot unmarshal into field Name of type string"
  | ("timestamp", .null) => .ok ev
  | ("timestamp", .str s) =>
      match parseTime s with
      | some t => .ok { ev with timestamp := t }
      | none => .error "parsing time: invalid RFC 3339 string"
  | ("timestamp", _) => .error "Time.UnmarshalJSON: input is not a JSON string"
  | (_, _) => .ok ev

/-- Fold json.Unmarshal over the object fields in order (later duplicate
keys overwrite earlier ones, as in the stdlib). -/
def unmarshalFields (parseTime : String → Option GoTime) :
    ProductEvent → List (String × Jval) → Except String ProductEvent
  | ev, [] => .ok ev
  | ev, f :: rest =>
      match applyField parseTime ev f with
      | .error e => .error e
      | .ok ev2 => unmarshalFields parseTime ev2 rest

/-- json.Unmarshal of a delivery body into a fresh ProductEvent var:
syntactically invalid bytes fail; a top-level null leaves the zero value
without error; a top-level object decodes field by field; any other
top-level value is a type error. -/
def unmarshalProductEvent (parseTime : String → Option GoTime) :
    Body → Except String ProductEvent
  | .malformed _ => .error "invalid character in message body"
  | .json .null => .ok zeroProductEvent
  | .json (.obj fields) => unmarshalFields parseTime zeroProductEvent fields
  | .json _ => .error "cannot unmarshal into Go value of type products.ProductEvent"

/-- Consumer.handleMessage: unmarshal the body (wrapping the error) and
log the decoded event; logging cannot fail, so success is exactly
deserialization success. -/
def handleMessage (parseTime : String → Option GoTime) (body : Body) :
    Except String Unit :=
  match unmarshalProductEvent parseTime body with
  | .error e => .error ("unmarshal event: " ++ e)
  | .ok _ => .ok ()

/-- A broker acknowledgement action, with the amqp multiple and requeue
flags. -/
inductive AckAction where
  | ack (multiple : Bool)
  | nack (multiple requeue : Bool)
  deriving DecidableEq, Repr

/-- How a terminating run of the listen loop ends: the cancellation
context fires, or the broker closes the delivery channel. -/
inductive Terminator where
  | ctxDone
  | chanClosed
  deriving DecidableEq, Repr

/-- A linearization of one terminating run of the select loop: the bodies
the select handed to the loop before the terminating case won. -/
structure Schedule where
  msgs : List Body
  fin : Terminator

/-- The message-handling loop body of Consumer.Listen: each delivery is
handled, then nacked (multiple=false, requeue=true) on failure or acked
(multiple=false) on success, and the loop continues either way. -/
def listenLoop (parseTime : String → Option GoTime) :
    List Body → List (Body × AckAction)
  | [] => []
  | b :: rest =>
      match handleMessage parseTime b with
      | .error _ => (b, .nack false true) :: listenLoop parseTime rest
      | .ok _ => (b, .ack false) :: listenLoop parseTime rest

/-- Consumer.Listen: a failed Consume setup returns a wrapped error at
once with no messages handled; otherwise the loop runs over the schedule
and returns nil both when the context fires and when the delivery channel
closes.  Result: the returned error and the ack trace. -/
def Consumer.listen (consumeErr : Option GoError) (parseTime : String → Option GoTime)
    (sched : Schedule) : Option GoError × List (Body × AckAction) :=
  match consumeErr with
  | some e => (some (.wrap ("consume queue " ++ EventsQueue) e), [])
  | none =>
      match sched.fin with
      | .ctxDone => (none, listenLoop parseTime sched.msgs)
      | .chanClosed => (none, listenLoop parseTime sched.msgs)

/-- A concrete clock value used by witnesses. -/
def sampleTime : GoTime := { year := 2026, rfc3339 := "2026-01-01T00:00:00Z" }

/-- C1: when the repository mutation succeeds, CreateProduct returns the
created product with nil error and DeleteProduct returns nil, for every
publisher behavior; a publish error is only logged, never propagated. -/
theorem publish_failure_resilience
    (repoCreate : String → Except GoError Product)
    (repoDelete : Int → Option GoError)
    (publish : ProductEvent → Option GoError)
    (now : GoTime) (name : String) (id : Int) (product : Product)
    (hname : trimSpace name ≠ "")
    (hcreate : repoCreate (trimSpace name) = .ok product)
    (hdelete : repoDelete id = none) :
    (createProduct repoCreate publish now name).result = .ok product ∧
    (deleteProduct repoDelete publish now id).result = .ok () := by
  constructor
  · simp only [createProduct, if_neg hname, hcreate]
  · simp only [deleteProduct, hdelete]

theorem publish_failure_resilience_witness :
    (createProduct (fun n => .ok { id := 1, name := n, createdAt := sampleTime })
        (fun _ => some (.base "broker down")) sampleTime " Phone ").result =
      .ok { id := 1, name := "Phone", createdAt := sampleTime } ∧
    (deleteProduct (fun _ => none) (fun _ => some (.base "broker down"))
        sampleTime 42).result = .ok () :=
  publish_failure_resilience
    (fun n => .ok { id := 1, name := n, createdAt := sampleTime })
    (fun _ => none) (fun _ => some (.base "broker down")) sampleTime
    " Phone " 42 { id := 1, name := "Phone", createdAt := sampleTime }
    (by decide) (by rw [show trimSpace " Phone " = "Phone" from by decide]) rfl

/-- C2: for a non-empty trimmed name on which the repository Create
succeeds and returns the name it was given, CreateProduct hands exactly
one event to the Publisher, with EventType product_created, Name the
trimmed input name and ProductID the repository-assigned identity. -/
theorem create_event_shape
    (repoCreate : String → Except GoError Product)
    (publish : ProductEvent → Option GoError)
    (now : GoTime) (name : String) (product : Product)
    (hname : trimSpace name ≠ "")
    (hcreate : repoCreate (trimSpace name) = .ok product)
    (hrepoName : product.name = trimSpace name) :
    (createProduct repoCreate publish now name).published =
      [{ eventType := EventCreated, productId := product.id,
         name := trimSpace name, timestamp := now }] := by
  simp only [createProduct, if_neg hname, hcreate, hrepoName]

theorem create_event_shape_witness :
    (createProduct (fun n => .ok { id := 7, name := n, createdAt := sampleTime })
        (fun _ => none) sampleTime " Widget ").published =
      [{ eventType := EventCreated, productId := 7,
         name := trimSpace " Widget ", timestamp := sampleTime }] :=
  create_event_shape
    (fun n => .ok { id := 7, name := n, createdAt := sampleTime })
    (fun _ => none) sampleTime " Widget "
    { id := 7, name := trimSpace " Widget ", createdAt := sampleTime }
    (by decide) rfl rfl

/-- C3: when the repository Delete succeeds, DeleteProduct hands exactly
one event to the Publisher, with EventType product_deleted, ProductID the
given id and the zero Name; the JSON body Publish builds for that event
carries exactly the keys event_type, product_id and timestamp — no name
field at all. -/
theorem delete_event_shape
    (repoDelete : Int → Option GoError)
    (publish : ProductEvent → Option GoError)
    (now : GoTime) (id : Int)
    (hdelete : repoDelete id = none)
    (hyear : 0 ≤ now.year ∧ now.year ≤ 9999) :
    (deleteProduct repoDelete publish now id).published =
      [{ eventType := EventDeleted, productId := id,
         name := "", timestamp := now }] ∧
    ∃ fields,
      marshalProductEvent
          { eventType := EventDeleted, productId := id,
            name := "", timestamp := now } = .ok (.obj fields) ∧
      fields.map Prod.fst = ["event_type", "product_id", "timestamp"] := by
  refine ⟨by simp only [deleteProduct, hdelete], ?_⟩
  refine ⟨[("event_type", .str EventDeleted), ("product_id", .num id),
    ("timestamp", .str now.rfc3339)], ?_, rfl⟩
  simp only [marshalProductEvent, marshalGoTime]
  rw [if_neg (by omega)]
  simp

theorem delete_event_shape_witness :
    (deleteProduct (fun _ => none) (fun _ => none) sampleTime 42).published =
      [{ eventType := EventDeleted, productId := 42,
         name := "", timestamp := sampleTime }] ∧
    ∃ fields,
      marshalProductEvent
          { eventType := EventDeleted, productId := 42,
            name := "", timestamp := sampleTime } = .ok (.obj fields) ∧
      fields.map Prod.fst = ["event_type", "product_id", "timestamp"] :=
  delete_event_shape (fun _ => none) (fun _ => none) sampleTime 42 rfl
    (by constructor <;> decide)

/-- C6: no event on failed mutation — a whitespace-only name, a failed
repository Create and a failed repository Delete (ErrNotFound included)
each produce an error return and hand nothing to Publisher.Publish. -/
theorem no_event_on_failed_mutation
    (repoCreate : String → Except GoError Product)
    (repoDelete : Int → Option GoError)
    (publish : ProductEvent → Option GoError)
    (now : GoTime) (name : String) (id : Int) (eC eD : GoError) :
    (trimSpace name = "" →
      (createProduct repoCreate publish now name).published = [] ∧
      (createProduct repoCreate publish now name).result = .error .errInvalidName) ∧
    (trimSpace name ≠ "" → repoCreate (trimSpace name) = .error eC →
      (createProduct repoCreate publish now name).published = [] ∧
      (createProduct repoCreate publish now name).result = .error (.wrap "repo create" eC)) ∧
    (repoDelete id = some eD →
      (deleteProduct repoDelete publish now id).published = [] ∧
      (deleteProduct repoDelete publish now id).result = .error (.wrap "repo delete" eD)) := by
  refine ⟨fun h => ?_, fun h hc => ?_, fun hd => ?_⟩
  · simp [createProduct, if_pos h]
  · simp [createProduct, if_neg h, hc]
  · simp [deleteProduct, hd]

theorem no_event_on_failed_mutation_witness :
    ((createProduct (fun _ => .error (.base "db down")) (fun _ => none)
        sampleTime "   ").published = [] ∧
      (createProduct (fun _ => .error (.base "db down")) (fun _ => none)
        sampleTime "   ").result = .error .errInvalidName) ∧
    ((createProduct (fun _ => .error (.base "db down")) (fun _ => none)
        sampleTime "Phone").published = [] ∧
      (createProduct (fun _ => .error (.base "db down")) (fun _ => none)
        sampleTime "Phone").result = .error (.wrap "repo create" (.base "db down"))) ∧
    ((deleteProduct (fun _ => some .errNotFound) (fun _ => none)
        sampleTime 999).published = [] ∧
      (deleteProduct (fun _ => some .errNotFound) (fun _ => none)
        sampleTime 999).result = .error (.wrap "repo delete" .errNotFound)) :=
  ⟨(no_event_on_failed_mutation (fun _ => .error (.base "db down"))
      (fun _ => some .errNotFound) (fun _ => none) sampleTime "   " 999
      (.base "db down") .errNotFound).1 (by decide),
   (no_event_on_failed_mutation (fun _ => .error (.base "db down"))
      (fun _ => some .errNotFound) (fun _ => none) sampleTime "Phone" 999
      (.base "db down") .errNotFound).2.1 (by decide) rfl,
   (no_event_on_failed_mutation (fun _ => .error (.base "db down"))
      (fun _ => some .errNotFound) (fun _ => none) sampleTime "Phone" 999
      (.base "db down") .errNotFound).2.2 rfl⟩

/-- C7: every event either operation ever hands to Publisher.Publish has
EventType product_created or product_deleted. -/
theorem event_type_invariant
    (repoCreate : String → Except GoError Product)
    (repoDelete : Int → Option GoError)
    (publish : ProductEvent → Option GoError)
    (now : GoTime) (name : String) (id : Int) (ev : ProductEvent)
    (hev : ev ∈ (createProduct repoCreate publish now name).published ++
        (deleteProduct repoDelete publish now id).published) :
    ev.eventType = EventCreated ∨ ev.eventType = EventDeleted := by
  rw [List.mem_append] at hev
  rcases hev with h | h
  · left
    by_cases hn : trimSpace name = ""
    · simp [createProduct, hn] at h
    · cases hcr : repoCreate (trimSpace name) with
      | error e => simp [createProduct, hn, hcr] at h
      | ok product =>
        simp [createProduct, hn, hcr] at h
        rw [h]
  · right
    cases hd : repoDelete id with
    | some e => simp [deleteProduct, hd] at h
    | none =>
      simp [deleteProduct, hd] at h
      rw [h]

theorem event_type_invariant_witness :
    ({ eventType := EventCreated, productId := 5, name := "Phone",
        timestamp := sampleTime } : ProductEvent).eventType = EventCreated ∨
    ({ eventType := EventCreated, productId := 5, name := "Phone",
        timestamp := sampleTime } : ProductEvent).eventType = EventDeleted :=
  event_type_invariant
    (fun n => .ok { id := 5, name := n, createdAt := sampleTime })
    (fun _ => none) (fun _ => none) sampleTime "Phone" 3
    { eventType := EventCreated, productId := 5, name := "Phone",
      timestamp := sampleTime }
    (by rw [List.mem_append]; left; rw [show (createProduct
      (fun n => .ok { id := 5, name := n, createdAt := sampleTime })
      (fun _ => none) sampleTime "Phone").published =
        [{ eventType := EventCreated, productId := 5, name := "Phone",
           timestamp := sampleTime }] from rfl]; exact List.mem_singleton.mpr rfl)

/-- C8: for every event the service constructs (its timestamp is the
producer clock value, whose year is in the range time.Time.MarshalJSON
accepts), the JSON serialization step inside Publish succeeds, and
Publish can return an error only when the transport itself fails. -/
theorem serialization_unreachable
    (repoCreate : String → Except GoError Product)
    (repoDelete : Int → Option GoError)
    (publish : ProductEvent → Option GoError)
    (transport : Jval → Option GoError)
    (now : GoTime) (name : String) (id : Int) (ev : ProductEvent)
    (hyear : 0 ≤ now.year ∧ now.year ≤ 9999)
    (hev : ev ∈ (createProduct repoCreate publish now name).published ++
        (deleteProduct repoDelete publish now id).published) :
    (∃ payload, marshalProductEvent ev = .ok payload) ∧
    (∀ e, rabbitPublish transport ev = some e →
      ∃ payload eT, marshalProductEvent ev = .ok payload ∧
        transport payload = some eT ∧
        e = .wrap ("publish to " ++ EventsQueue) eT) := by
  have hts : ev.timestamp = now := by
    rw [List.mem_append] at hev
    rcases hev with h | h
    · by_cases hn : trimSpace name = ""
      · simp [createProduct, hn] at h
      · cases hcr : repoCreate (trimSpace name) with
        | error e => simp [createProduct, hn, hcr] at h
        | ok product =>
          simp [createProduct, hn, hcr] at h
          rw [h]
    · cases hd : repoDelete id with
      | some e => simp [deleteProduct, hd] at h
      | none =>
        simp [deleteProduct, hd] at h
        rw [h]
  have hmt : marshalGoTime ev.timestamp = .ok (.str now.rfc3339) := by
    rw [hts]
    unfold marshalGoTime
    rw [if_neg (by omega)]
  have hm : ∃ payload, marshalProductEvent ev = .ok payload := by
    unfold marshalProductEvent
    rw [hmt]
    exact ⟨_, rfl⟩
  obtain ⟨payload, hp⟩ := hm
  refine ⟨⟨payload, hp⟩, fun e he => ?_⟩
  unfold rabbitPublish at he
  rw [hp] at he
  dsimp only at he
  cases ht : transport payload with
  | none => rw [ht] at he; exact absurd he (by simp)
  | some eT =>
      rw [ht] at he
      simp only [Option.some.injEq] at he
      exact ⟨payload, eT, hp, ht, he.symm⟩

theorem serialization_unreachable_witness :
    (∃ payload, marshalProductEvent
      { eventType := EventDeleted, productId := 9, name := "",
        timestamp := sampleTime } = .ok payload) ∧
    (∀ e, rabbitPublish (fun _ => some (.base "broker down"))
        { eventType := EventDeleted, productId := 9, name := "",
          timestamp := sampleTime } = some e →
      ∃ payload eT, marshalProductEvent
          { eventType := EventDeleted, productId := 9, name := "",
            timestamp := sampleTime } = .ok payload ∧
        (fun _ => some (.base "broker down")) payload = some eT ∧
        e = .wrap ("publish to " ++ EventsQueue) eT) :=
  serialization_unreachable (fun n => .ok { id := 9, name := n, createdAt := sampleTime })
    (fun _ => none) (fun _ => none) (fun _ => some (.base "broker down"))
    sampleTime "unused" 9
    { eventType := EventDeleted, productId := 9, name := "", timestamp := sampleTime }
    (by constructor <;> decide)
    (by rw [List.mem_append]; right; rw [show (deleteProduct
      (fun _ => none) (fun _ => none) sampleTime 9).published =
        [{ eventType := EventDeleted, productId := 9, name := "",
           timestamp := sampleTime }] from rfl]; exact List.mem_singleton.mpr rfl)

/-- handleMessage succeeds exactly when the body deserializes. -/
theorem handleMessage_isOk (parseTime : String → Option GoTime) (b : Body) :
    (handleMessage parseTime b).isOk = (unmarshalProductEvent parseTime b).isOk := by
  unfold handleMessage
  cases unmarshalProductEvent parseTime b <;> rfl

/-- The loop body pairs each received delivery, in order, with the single
acknowledgement its deserialization outcome dictates. -/
theorem listenLoop_eq_map (parseTime : String → Option GoTime) (msgs : List Body) :
    listenLoop parseTime msgs = msgs.map (fun b =>
      (b, if (unmarshalProductEvent parseTime b).isOk then
            AckAction.ack false
          else
            AckAction.nack false true)) := by
  induction msgs with
  | nil => rfl
  | cons b rest ih =>
      unfold listenLoop
      cases hh : handleMessage parseTime b with
      | error e =>
          have : (unmarshalProductEvent parseTime b).isOk = false := by
            rw [← handleMessage_isOk, hh]; rfl
          simp [ih, this]
      | ok u =>
          have : (unmarshalProductEvent parseTime b).isOk = true := by
            rw [← handleMessage_isOk, hh]; rfl
          simp [ih, this]

/-- C4: in every terminating run of the loop, each received message gets
exactly one acknowledgement — a non-cumulative ack when its body
deserializes, a non-cumulative nack with requeue=true when it does not —
the loop survives the failure without an error and goes on to handle
every later message. -/
theorem consumer_ack_dichotomy (parseTime : String → Option GoTime)
    (msgs : List Body) (fin : Terminator) (i : Nat) (b : Body)
    (hb : msgs[i]? = some b) :
    (Consumer.listen none parseTime ⟨msgs, fin⟩).2.length = msgs.length ∧
    (Consumer.listen none parseTime ⟨msgs, fin⟩).1 = none ∧
    (Consumer.listen none parseTime ⟨msgs, fin⟩).2[i]? =
      some (b, if (unmarshalProductEvent parseTime b).isOk then
          AckAction.ack false
        else
          AckAction.nack false true) := by
  have hl : (Consumer.listen none parseTime ⟨msgs, fin⟩).2 = msgs.map (fun b =>
      (b, if (unmarshalProductEvent parseTime b).isOk then
            AckAction.ack false
          else
            AckAction.nack false true)) := by
    cases fin <;> exact listenLoop_eq_map parseTime msgs
  refine ⟨by rw [hl]; exact List.length_map _ _, by cases fin <;> rfl, ?_⟩
  rw [hl, List.getElem?_map, hb]
  rfl

theorem consumer_ack_dichotomy_witness :
    (Consumer.listen none (fun _ => some sampleTime)
      ⟨[Body.json (.obj [("event_type", .str "product_created"),
          ("product_id", .num 7), ("name", .str "Widget"),
          ("timestamp", .str "2026-01-01T00:00:00Z")]),
        Body.malformed "xx"], .ctxDone⟩).2.length = 2 ∧
    (Consumer.listen none (fun _ => some sampleTime)
      ⟨[Body.json (.obj [("event_type", .str "product_created"),
          ("product_id", .num 7), ("name", .str "Widget"),
          ("timestamp", .str "2026-01-01T00:00:00Z")]),
        Body.malformed "xx"], .ctxDone⟩).1 = none ∧
    (Consumer.listen none (fun _ => some sampleTime)
      ⟨[Body.json (.obj [("event_type", .str "product_created"),
          ("product_id", .num 7), ("name", .str "Widget"),
          ("timestamp", .str "2026-01-01T00:00:00Z")]),
        Body.malformed "xx"], .ctxDone⟩).2[1]? =
      some (Body.malformed "xx",
        if (unmarshalProductEvent (fun _ => some sampleTime)
            (Body.malformed "xx")).isOk then
          AckAction.ack false
        else
          AckAction.nack false true) :=
  consumer_ack_dichotomy (fun _ => some sampleTime)
    [Body.json (.obj [("event_type", .str "product_created"),
        ("product_id", .num 7), ("name", .str "Widget"),
        ("timestamp", .str "2026-01-01T00:00:00Z")]),
      Body.malformed "xx"] .ctxDone 1 (Body.malformed "xx") rfl

/-- C5: Listen returns nil both when the cancellation context fires and
when the broker closes the delivery channel, and it returns a non-nil
error exactly when the initial Consume setup call fails. -/
theorem listen_error_iff_consume_fails (consumeErr : Option GoError)
    (parseTime : String → Option GoTime) (sched : Schedule) :
    ((Consumer.listen consumeErr parseTime sched).1 = none ↔ consumeErr = none) := by
  cases consumeErr with
  | none => cases h : sched.fin <;> simp [Consumer.listen, h]
  | some e =>
      constructor
      · intro h
        exact absurd h (by simp [Consumer.listen])
      · intro h
        exact absurd h (by simp)

/-- C9 counterexample: a body that is valid JSON but uses a field name
outside the wire contract deserializes successfully (the decoder ignores
unknown keys and leaves the zero event), so the consumer acknowledges it
instead of surfacing a mismatch and requeueing — refuting the claim that
every field-name mismatch is a deserialization failure. -/
theorem contract_mismatch_counterexample :
    (unmarshalProductEvent (fun _ => none)
      (Body.json (.obj [("foo", .num 1)]))).isOk = true ∧
    handleMessage (fun _ => none) (Body.json (.obj [("foo", .num 1)])) = .ok () ∧
    (Consumer.listen none (fun _ => none)
      ⟨[Body.json (.obj [("foo", .num 1)])], .ctxDone⟩).2 =
      [(Body.json (.obj [("foo", .num 1)]), AckAction.ack false)] :=
  ⟨rfl, rfl, rfl⟩

/-- C9 amended: bodies that are not valid JSON, whose top level is not an
object (or null), or that bind one of the contract field names to a value
of the wrong type all surface as deserialization failures and are
requeued with requeue=true; but a valid JSON object whose field names lie
outside the contract deserializes successfully into the zero event and is
acknowledged, because the decoder ignores unknown keys. -/
theorem contract_type_mismatch_requeued
    (parseTime : String → Option GoTime) (raw s : String) (n : Int)
    (b0 : Bool) (rest : List (String × Jval)) :
    (unmarshalProductEvent parseTime (Body.malformed raw)).isOk = false ∧
    (unmarshalProductEvent parseTime (Body.json (.num n))).isOk = false ∧
    (unmarshalProductEvent parseTime
      (Body.json (.obj (("event_type", Jval.num n) :: rest)))).isOk = false ∧
    (unmarshalProductEvent parseTime
      (Body.json (.obj (("product_id", Jval.str s) :: rest)))).isOk = false ∧
    (unmarshalProductEvent parseTime
      (Body.json (.obj (("name", Jval.bool b0) :: rest)))).isOk = false ∧
    (unmarshalProductEvent parseTime
      (Body.json (.obj (("timestamp", Jval.num n) :: rest)))).isOk = false ∧
    (Consumer.listen none parseTime ⟨[Body.malformed raw], .ctxDone⟩).2 =
      [(Body.malformed raw, AckAction.nack false true)] ∧
    unmarshalProductEvent parseTime (Body.json (.obj [("foo", .num 1)])) =
      .ok zeroProductEvent := by
  refine ⟨rfl, rfl, rfl, rfl, rfl, rfl, ?_, rfl⟩
  rfl

/-- The int64 wrap is the identity on values already in range. -/
theorem int64Wrap_eq_self (n : Int) (h0 : 0 ≤ n) (h1 : n < 2 ^ 63) :
    int64Wrap n = n := by
  unfold int64Wrap
  rw [Int.emod_eq_of_lt (by omega) (by norm_num; omega)]
  omega

/-- C10 counterexample: at page = 2 to the 62 and limit = 4, the effective
limit is 4 and the mathematical offset (max(page,1) - 1) * 4 =
18446744073709551612 exceeds the int64 range, so Go's wrapping
multiplication makes ListProducts call the repository with offset -4,
not the claimed product — refuting the claim for every integer page. -/
theorem pagination_overflow_counterexample :
    (listProducts (fun _ _ => .ok []) (.ok 0) (2 ^ 62) 4).repoCalls = [(4, -4)] ∧
    (max (2 ^ 62 : Int) 1 - 1) * 4 = 18446744073709551612 ∧
    (-4 : Int) ≠ 18446744073709551612 := by
  refine ⟨by decide, by norm_num, by decide⟩

/-- C10 amended: for every integer page and limit whose effective
mathematical offset stays below 2 to the 63 (so the 64-bit multiplication
cannot wrap), ListProducts calls the repository List exactly once with
the effective limit L — defaultPageSize when limit is below 1,
maxPageSize when limit exceeds 100, limit itself otherwise — and offset
(max(page,1) - 1) * L, and returns the repository List items and Count
total unmodified. -/
theorem pagination_clamping
    (repoList : Int → Int → Except GoError (List Product))
    (repoCount : Except GoError Int) (page limit : Int)
    (items : List Product) (total : Int)
    (hov : (max page 1 - 1) *
      (if limit < 1 then defaultPageSize else if limit > 100 then maxPageSize else limit)
        < 2 ^ 63)
    (hl : repoList
      (if limit < 1 then defaultPageSize else if limit > 100 then maxPageSize else limit)
      ((max page 1 - 1) *
        (if limit < 1 then defaultPageSize else if limit > 100 then maxPageSize else limit))
        = .ok items)
    (hc : repoCount = .ok total) :
    (listProducts repoList repoCount page limit).repoCalls =
      [((if limit < 1 then defaultPageSize else if limit > 100 then maxPageSize else limit),
        (max page 1 - 1) *
          (if limit < 1 then defaultPageSize else if limit > 100 then maxPageSize else limit))] ∧
    (listProducts repoList repoCount page limit).result = .ok (items, total) := by
  have hpage : (if page < 1 then (1 : Int) else page) = max page 1 := by
    rcases le_or_lt 1 page with h | h
    · rw [if_neg (by omega), max_eq_left h]
    · rw [if_pos h, max_eq_right (by omega)]
  set L : Int := if limit < 1 then defaultPageSize else if limit > 100 then maxPageSize else limit with hLdef
  have hL2 : (if (if limit < 1 then defaultPageSize else limit) > maxPageSize then maxPageSize
      else if limit < 1 then defaultPageSize else limit) = L := by
    rw [hLdef]
    unfold defaultPageSize maxPageSize
    split_ifs <;> omega
  have hLpos : 0 < L := by
    rw [hLdef]
    unfold defaultPageSize maxPageSize
    split_ifs <;> omega
  have hoff : int64Wrap ((max page 1 - 1) * L) = (max page 1 - 1) * L :=
    int64Wrap_eq_self _ (mul_nonneg (by simp [sub_nonneg]) (le_of_lt hLpos)) hov
  simp only [listProducts]
  rw [hpage, hL2, hoff, hl, hc]
  exact ⟨rfl, rfl⟩

theorem pagination_clamping_witness :
    (listProducts
        (fun _ _ => .ok [{ id := 3, name := "C", createdAt := sampleTime }])
        (.ok 10) 2 2).repoCalls =
      [((if (2 : Int) < 1 then defaultPageSize else if (2 : Int) > 100 then maxPageSize else 2),
        (max (2 : Int) 1 - 1) *
          (if (2 : Int) < 1 then defaultPageSize else if (2 : Int) > 100 then maxPageSize else 2))] ∧
    (listProducts
        (fun _ _ => .ok [{ id := 3, name := "C", createdAt := sampleTime }])
        (.ok 10) 2 2).result =
      .ok ([{ id := 3, name := "C", createdAt := sampleTime }], 10) :=
  pagination_clamping
    (fun _ _ => .ok [{ id := 3, name := "C", createdAt := sampleTime }])
    (.ok 10) 2 2 [{ id := 3, name := "C", createdAt := sampleTime }] 10
    (by norm_num) rfl rfl
